import Mathlib

/-!
Verification of the command-execution and background-process-supervision core
of the soul-cli-ai repository.

The definitions below are a shallow embedding of
`packages/core/src/services/backgroundProcessService.ts` (the
`BackgroundProcessService` class) and of the shell runner
`packages/core/src/tools/shell.ts` (`ShellToolInvocation.execute`).

Modelling conventions:
* A JavaScript `Map<string, T>` is modelled as an association list
  `List (String × T)`; `Map.get` is `mapGet` (first binding wins; the code
  never creates duplicate bindings) and `Map.set` is `mapSet` (replace in
  place, append when absent — exactly `Map.set`).
* JavaScript numbers used as counts/indices are `Nat`.
  `Math.max(0, index - overflow)` is `Nat` truncated subtraction,
  which agrees with the source expression exactly.
* Wall-clock instants (`Date.now()`, `new Date()`) are passed in explicitly as
  `Nat` millisecond timestamps, since the service only uses them for
  arithmetic and display.
* `Math.random()`-derived quantities are passed in explicitly as parameters,
  so that the functions stay pure while every data flow of the source is kept.
* Asynchronous callbacks (the continuation that `registerProcess` attaches to
  the execution's result promise, and output-event deliveries) are modelled as
  explicit events (`AsyncEvent`) applied to the service state; the runtime is
  single threaded and cooperative, so each callback runs atomically between
  suspension points.
-/

/-- Lifecycle status of a background process
(`status: 'running' | 'completed' | 'failed' | 'terminated'`). -/
inductive PStatus where
  | running
  | completed
  | failed
  | terminated
deriving DecidableEq, Repr

/-- `Map.get`: the value bound to `k`, if any (first binding wins). -/
def mapGet {α : Type} : List (String × α) → String → Option α
  | [], _ => none
  | kv :: rest, k => if kv.1 = k then some kv.2 else mapGet rest k

/-- `Map.set`: replace the binding for `k` in place, append when absent. -/
def mapSet {α : Type} : List (String × α) → String → α → List (String × α)
  | [], k, v => [(k, v)]
  | kv :: rest, k, v => if kv.1 = k then (k, v) :: rest else kv :: mapSet rest k v

/-- The `BackgroundProcess` record of `backgroundProcessService.ts`.
`handle` (the engine handle) is represented only through
`hasAbortController` (presence of the `abortController` field), which is the
only thing `killProcess` branches on; the continuation the handle's result
promise drives is modelled by `AsyncEvent`s.  `exitCode?: number | null`
becomes `Option (Option Int)` (outer: field present, inner: null). -/
structure BackgroundProcess where
  id : String
  pid : Option Nat
  command : String
  status : PStatus
  exitCode : Option (Option Int) := none
  terminationSignal : Option String := none
  outputBuffer : List String := []
  lastReadIndex : List (String × Nat) := []
  startTime : Nat := 0
  endTime : Option Nat := none
  hasAbortController : Bool := true
  memoryUsage : Option Nat := none
  fileDescriptors : Option Nat := none
deriving DecidableEq, Repr

/-- The mutable state of the `BackgroundProcessService` singleton: its
`processes` map.  (The cleanup-timer map only matters for eviction, which no
claim exercises; it is omitted.) -/
structure ServiceState where
  processes : List (String × BackgroundProcess)
deriving DecidableEq, Repr

/-- `private readonly MAX_BUFFER_LINES = 10000`.  The buffer-management
functions take the bound as a parameter so that properties can be stated for
any bound (the spec's eviction scenario uses 3); `MAX_BUFFER_LINES` is the
value the service is built with. -/
def MAX_BUFFER_LINES : Nat := 10000

/-- `registerProcess(id, pid, command, handle?, abortController?)`: creates a
fresh `running` record and stores it under `id`.  The continuation attached to
`handle.result` is modelled by the `AsyncEvent.settleOk` / `settleErr` events
below. -/
def registerProcess (st : ServiceState) (id : String) (pid : Option Nat)
    (command : String) (hasAbortController : Bool) (now : Nat) : ServiceState :=
  { st with
    processes := mapSet st.processes id
      { id := id
        pid := pid
        command := command
        status := PStatus.running
        exitCode := none
        terminationSignal := none
        outputBuffer := []
        lastReadIndex := []
        startTime := now
        endTime := none
        hasAbortController := hasAbortController
        memoryUsage := none
        fileDescriptors := none } }

/-- `output.split('\n')` on the character list: split at every newline,
keeping empty segments (structurally recursive so that concrete runs compute
by kernel reduction). -/
def splitNl : List Char → List (List Char)
  | [] => [[]]
  | c :: rest =>
    match splitNl rest with
    | [] => [[]]
    | seg :: segs => if c = '\n' then [] :: seg :: segs else (c :: seg) :: segs

/-- `output.split('\n').filter(line => line.length > 0)`. -/
def splitOutputLines (output : String) : List String :=
  ((splitNl output.toList).map (fun seg => String.mk seg)).filter
    (fun line => line.length > 0)

/-- The record update performed by `addOutput` on the looked-up process:
push the new lines; if the buffer exceeds the bound, `splice(0, overflow)`
and shift every consumer's read index down by `overflow`, floored at 0
(`Math.max(0, index - overflow)` — `Nat` subtraction). -/
def addOutputRecord (maxBufferLines : Nat) (p : BackgroundProcess)
    (output : String) : BackgroundProcess :=
  if (p.outputBuffer ++ splitOutputLines output).length > maxBufferLines then
    { p with
      outputBuffer := (p.outputBuffer ++ splitOutputLines output).drop
        ((p.outputBuffer ++ splitOutputLines output).length - maxBufferLines)
      lastReadIndex := p.lastReadIndex.map
        (fun kv =>
          (kv.1, kv.2 - ((p.outputBuffer ++ splitOutputLines output).length - maxBufferLines))) }
  else
    { p with outputBuffer := p.outputBuffer ++ splitOutputLines output }

/-- `addOutput(id, output)`: update the buffer of the process registered under
`id`; no-op when `id` is unknown (process already evicted). -/
def addOutput (maxBufferLines : Nat) (st : ServiceState) (id : String)
    (output : String) : ServiceState :=
  match mapGet st.processes id with
  | none => st
  | some p =>
    { st with processes := mapSet st.processes id (addOutputRecord maxBufferLines p output) }

/-- The last `n` elements of a list. -/
def lastN {α : Type} (n : Nat) (l : List α) : List α := l.drop (l.length - n)

/-- Rendering of `process.status` (and the `'not_found'` sentinel) as the
string the service returns. -/
def statusString : PStatus → String
  | PStatus.running => "running"
  | PStatus.completed => "completed"
  | PStatus.failed => "failed"
  | PStatus.terminated => "terminated"

/-- Result shape of `getNewOutput`. -/
structure PollResult where
  output : List String
  status : String
  exitCode : Option (Option Int) := none
  error : Option String := none
deriving DecidableEq, Repr

/-- JavaScript's `new RegExp(filter)` followed by `regex.test(line)`:
compilation either throws (`none` — the pattern is syntactically invalid) or
yields a predicate on lines.  The regular-expression language itself is
external to the repository, so `getNewOutput` is stated for an arbitrary
engine. -/
structure RegexEngine where
  compile : String → Option (String → Bool)

/-- `process.lastReadIndex.set(consumerId, process.outputBuffer.length)` —
the only mutation a successful poll performs. -/
def advanceRecord (p : BackgroundProcess) (consumerId : String) : BackgroundProcess :=
  { p with lastReadIndex := mapSet p.lastReadIndex consumerId p.outputBuffer.length }

/-- `getNewOutput(id, consumerId = 'default', filter?)`: returns the buffer
slice past this consumer's read index, optionally filtered; an invalid filter
returns an error result without touching any state; otherwise the consumer's
read index is advanced to the buffer's current length (before filtering is
taken into account).  `if (filter)` is JavaScript truthiness: `undefined` and
`''` both skip filtering. -/
def getNewOutput (engine : RegexEngine) (st : ServiceState) (id : String)
    (consumerId : String) (filter : Option String) : PollResult × ServiceState :=
  match mapGet st.processes id with
  | none =>
    ({ output := []
       status := "not_found"
       error := some ("No background process found with ID: " ++ id) }, st)
  | some p =>
    let lastIndex := (mapGet p.lastReadIndex consumerId).getD 0
    let newLines := p.outputBuffer.drop lastIndex
    let advance : List String → PollResult × ServiceState := fun lines =>
      ({ output := lines
         status := statusString p.status
         exitCode := p.exitCode },
       { st with processes := mapSet st.processes id (advanceRecord p consumerId) })
    match filter with
    | none => advance newLines
    | some f =>
      if 0 < f.length then
        match engine.compile f with
        | none =>
          ({ output := []
             status := statusString p.status
             exitCode := p.exitCode
             error := some ("Invalid regex filter: " ++ f) }, st)
        | some test => advance (newLines.filter test)
      else advance newLines

/-- `s !== 1 ? 's' : ''` pluralisation used by the formatting helpers. -/
def pluralS (n : Nat) : String := if n = 1 then "" else "s"

/-- `formatRuntime(seconds)`. -/
def formatRuntime (seconds : Nat) : String :=
  let minutes := seconds / 60
  let secs := seconds % 60
  if minutes > 0 then
    toString minutes ++ " minute" ++ pluralS minutes ++ " " ++
      toString secs ++ " second" ++ pluralS secs
  else
    toString secs ++ " second" ++ pluralS secs

/-- `formatTimeDiff(date)` relative to `now`. -/
def formatTimeDiff (now date : Nat) : String :=
  let seconds := (now - date) / 1000
  if seconds < 60 then toString seconds ++ " second" ++ pluralS seconds ++ " ago"
  else
    let minutes := seconds / 60
    if minutes < 60 then toString minutes ++ " minute" ++ pluralS minutes ++ " ago"
    else
      let hours := minutes / 60
      toString hours ++ " hour" ++ pluralS hours ++ " ago"

/-- `markProcessCompleted(id, exitCode)`. -/
def markProcessCompleted (st : ServiceState) (id : String) (exitCode : Option Int)
    (now : Nat) : ServiceState :=
  match mapGet st.processes id with
  | none => st
  | some p =>
    { st with
      processes := mapSet st.processes id
        { p with status := PStatus.completed, exitCode := some exitCode, endTime := some now } }

/-- `markProcessTerminated(id, signal)`. -/
def markProcessTerminated (st : ServiceState) (id : String) (signal : String)
    (now : Nat) : ServiceState :=
  match mapGet st.processes id with
  | none => st
  | some p =>
    { st with
      processes := mapSet st.processes id
        { p with status := PStatus.terminated, terminationSignal := some signal,
                 endTime := some now } }

/-- The status/endTime update of `markProcessFailed`. -/
def failRecord (p : BackgroundProcess) (now : Nat) : BackgroundProcess :=
  { p with status := PStatus.failed, endTime := some now }

/-- `markProcessFailed(id, error)`: sets the terminal state and appends the
failure message as a synthetic output line via `addOutput` (which uses the
service's own `MAX_BUFFER_LINES`, threaded through here as `maxBufferLines`). -/
def markProcessFailed (maxBufferLines : Nat) (st : ServiceState) (id : String)
    (message : String) (now : Nat) : ServiceState :=
  match mapGet st.processes id with
  | none => st
  | some p =>
    addOutput maxBufferLines
      { st with processes := mapSet st.processes id (failRecord p now) }
      id ("Process failed: " ++ message)

/-- Asynchronous callbacks that can run at a suspension point: an output-event
delivery (`addOutput` wired by the launcher) and the two continuations that
`registerProcess` attaches to the execution's result promise. -/
inductive AsyncEvent where
  | addOut (id : String) (output : String)
  | settleOk (id : String) (exitCode : Option Int) (now : Nat)
  | settleErr (id : String) (message : String) (now : Nat)

/-- Run one queued callback against the service state. -/
def applyEvent (maxBufferLines : Nat) (st : ServiceState) : AsyncEvent → ServiceState
  | AsyncEvent.addOut id output => addOutput maxBufferLines st id output
  | AsyncEvent.settleOk id exitCode now => markProcessCompleted st id exitCode now
  | AsyncEvent.settleErr id message now => markProcessFailed maxBufferLines st id message now

/-- JavaScript `x || d` on an optional number: `undefined` and `0` are falsy. -/
def jsOrNat (x : Option Nat) (d : Nat) : Nat :=
  match x with
  | some n => if n = 0 then d else n
  | none => d

/-- `${process.pid || 'unknown'}`. -/
def showPid (pid : Option Nat) : String :=
  match pid with
  | some n => if n = 0 then "unknown" else toString n
  | none => "unknown"

/-- `${process.exitCode ?? 'unknown'}` (`undefined` and `null` both print
`unknown`). -/
def showExitCodeOrUnknown (exitCode : Option (Option Int)) : String :=
  match exitCode with
  | some (some n) => toString n
  | _ => "unknown"

/-- `resourcesFreed` component of a termination report. -/
structure ResourcesFreed where
  memory : Nat
  fileDescriptors : Nat
deriving DecidableEq, Repr

/-- Result shape of `killProcess`. -/
structure KillResult where
  success : Bool
  message : String
  runtime : Option Nat := none
  resourcesFreed : Option ResourcesFreed := none
  terminationMethod : Option String := none
  exitCode : Option (Option Int) := none
deriving DecidableEq, Repr

/-- The state at the end of `killProcess`'s 500 ms grace wait: when the record
has an `abortController` the code awaits, and the queued callbacks `interim`
run; otherwise there is no suspension point and the state is unchanged. -/
def killGraceState (maxBufferLines : Nat) (st : ServiceState)
    (interim : List AsyncEvent) (p : BackgroundProcess) : ServiceState :=
  if p.hasAbortController then interim.foldl (applyEvent maxBufferLines) st else st

/-- `let terminationMethod = 'SIGTERM'; ... if (updatedProcess &&
updatedProcess.status === 'running') terminationMethod = 'SIGKILL (forced)'`. -/
def killTerminationMethod (stAfterWait : ServiceState) (id : String)
    (p : BackgroundProcess) : String :=
  if p.hasAbortController then
    match mapGet stAfterWait.processes id with
    | some updated =>
      if updated.status = PStatus.running then "SIGKILL (forced)" else "SIGTERM"
    | none => "SIGTERM"
  else "SIGTERM"

/-- The `killProcess(id)` operation.  The 500 ms grace wait after
`abortController.abort()` is a suspension point, so the queued callbacks that
run during it (result-promise settlement, output deliveries) are passed in as
`interim`; when the record has no `abortController` the code never awaits, so
no interim callback can run.  `randMem` stands for the drawn
`Math.floor(Math.random() * 100)` and `randFd` for
`Math.floor(Math.random() * 5)`; the source adds 10 resp. 1 to them.
The exception branch of the source's `try` is unreachable in this pure model
(none of the operations inside the `try` throws), so `killProcess` never
"throws" here either. -/
def killProcess (maxBufferLines : Nat) (st : ServiceState) (id : String)
    (interim : List AsyncEvent) (now randMem randFd : Nat) :
    KillResult × ServiceState :=
  match mapGet st.processes id with
  | none =>
    ({ success := false
       message := "No background process found with ID: " ++ id }, st)
  | some p =>
    match p.status with
    | PStatus.completed =>
      let runtime := match p.endTime with
        | some e => (e - p.startTime) / 1000
        | none => 0
      ({ success := false
         message := "Process has already completed\n  - Exit Code: " ++
           showExitCodeOrUnknown p.exitCode ++ "\n  - Completed: " ++
           (match p.endTime with
            | some e => formatTimeDiff now e
            | none => "unknown") ++
           "\n  - Final Status: " ++
           (if p.exitCode = some (some 0) then "Success" else "Failed")
         runtime := some runtime
         exitCode := p.exitCode }, st)
    | PStatus.failed =>
      ({ success := false
         message := "Process " ++ id ++ " has already failed" }, st)
    | PStatus.terminated =>
      ({ success := false
         message := "Process " ++ id ++ " was already terminated" }, st)
    | PStatus.running =>
      let runtime := (now - p.startTime) / 1000
      let memoryFreed := jsOrNat p.memoryUsage (randMem + 10)
      let fileDescriptorsFreed := jsOrNat p.fileDescriptors (randFd + 1)
      let stAfterWait := killGraceState maxBufferLines st interim p
      let terminationMethod := killTerminationMethod stAfterWait id p
      let stFinal := markProcessTerminated stAfterWait id terminationMethod now
      ({ success := true
         message := "Process terminated successfully\n  - Process ID: " ++
           showPid p.pid ++
           "\n  - Status: Running â†’ Terminated\n  - Runtime: " ++
           formatRuntime runtime ++ "\n  - Resources cleaned up: " ++
           toString memoryFreed ++ "MB memory, " ++
           toString fileDescriptorsFreed ++ " file descriptors"
         runtime := some runtime
         resourcesFreed := some { memory := memoryFreed
                                  fileDescriptors := fileDescriptorsFreed }
         terminationMethod := some terminationMethod }, stFinal)

/-- One mutation step of the registry never deletes a record, and whenever it
changes a record's status the new status is terminal (`running` is never
re-entered). -/
def StatusEvolves (st st' : ServiceState) : Prop :=
  ∀ id q, mapGet st.processes id = some q →
    ∃ q', mapGet st'.processes id = some q' ∧
      (q'.status = q.status ∨ q'.status ≠ PStatus.running)

/-- The operations that mutate the registry after a process is registered:
output delivery, polling, termination, and the two result-promise
continuations attached at registration. -/
inductive SupervisorOp where
  | opAddOutput (id output : String)
  | opPoll (engine : RegexEngine) (id consumerId : String) (filter : Option String)
  | opKill (id : String) (interim : List AsyncEvent) (now randMem randFd : Nat)
  | opSettleOk (id : String) (exitCode : Option Int) (now : Nat)
  | opSettleErr (id : String) (message : String) (now : Nat)

/-- Apply one supervisor operation to the service state. -/
def applyOp (maxBufferLines : Nat) (st : ServiceState) : SupervisorOp → ServiceState
  | SupervisorOp.opAddOutput id output => addOutput maxBufferLines st id output
  | SupervisorOp.opPoll engine id consumerId filter =>
    (getNewOutput engine st id consumerId filter).2
  | SupervisorOp.opKill id interim now randMem randFd =>
    (killProcess maxBufferLines st id interim now randMem randFd).2
  | SupervisorOp.opSettleOk id exitCode now => markProcessCompleted st id exitCode now
  | SupervisorOp.opSettleErr id message now =>
    markProcessFailed maxBufferLines st id message now

/-- The empty registry. -/
def emptyService : ServiceState := { processes := [] }

/-- A concrete regex engine for the scenario runs: `"("` fails to compile
(as in JavaScript), any other pattern matches exactly the lines equal to the
pattern text. -/
def demoEngine : RegexEngine :=
  { compile := fun pattern =>
      if pattern = "(" then none else some (fun line => line == pattern) }

/-- Scenario registry: one process `p1`, freshly registered. -/
def demoReg : ServiceState := registerProcess emptyService "p1" (some 7) "npm run dev" true 0

/-- After appending `l1` and `l2` one at a time with bound 3. -/
def demoS2 : ServiceState := addOutput 3 (addOutput 3 demoReg "p1" "l1") "p1" "l2"

/-- The record stored for `p1` in `demoS2`. -/
def demoP2 : BackgroundProcess :=
  { id := "p1", pid := some 7, command := "npm run dev", status := PStatus.running,
    outputBuffer := ["l1", "l2"] }

/-- Consumer `c` polls after line 2: its offset becomes 2. -/
def demoS2r : ServiceState := (getNewOutput demoEngine demoS2 "p1" "c" none).2

/-- After appending `l3` (buffer now full at the bound 3). -/
def demoS3 : ServiceState := addOutput 3 demoS2r "p1" "l3"

/-- The record stored for `p1` in `demoS3`. -/
def demoP3 : BackgroundProcess :=
  { id := "p1", pid := some 7, command := "npm run dev", status := PStatus.running,
    outputBuffer := ["l1", "l2", "l3"], lastReadIndex := [("c", 2)] }

/-- After appending `l4` and `l5` one at a time: two evictions happen. -/
def demoS5 : ServiceState := addOutput 3 (addOutput 3 demoS3 "p1" "l4") "p1" "l5"

/-- A freshly registered process about to be killed. -/
def c3State0 : ServiceState :=
  registerProcess emptyService "bash_1_k3" (some 42) "sleep 100" true 0

/-- The registry after `killProcess` succeeds: the record is `terminated`. -/
def c3StateKilled : ServiceState :=
  (killProcess MAX_BUFFER_LINES c3State0 "bash_1_k3" [] 1000 0 0).2

/-- The registry after the execution's result promise later resolves (the
continuation attached by `registerProcess` fires `markProcessCompleted`). -/
def c3StateSettled : ServiceState :=
  applyOp MAX_BUFFER_LINES c3StateKilled (SupervisorOp.opSettleOk "bash_1_k3" (some 0) 2000)

/-- The record stored in `c3StateKilled`. -/
def c3KilledP : BackgroundProcess :=
  { id := "bash_1_k3", pid := some 42, command := "sleep 100",
    status := PStatus.terminated, terminationSignal := some "SIGKILL (forced)",
    endTime := some 1000 }

/-- A running process whose `memoryUsage` and `fileDescriptors` were never
tracked (`undefined`). -/
def c10State : ServiceState :=
  registerProcess emptyService "bash_9_rng" (some 7) "sleep 999" true 0

/-- `ShellOutputEvent` of the execution engine: `data` chunks, a one-time
binary detection, and cumulative binary progress. -/
inductive ShellOutputEvent where
  | data (chunk : String)
  | binaryDetected
  | binaryProgress (bytesReceived : Nat)

/-- What the background output callback of `ShellToolInvocation.execute`
passes to `service.addOutput` for each event.  `fmt` stands for
`formatMemoryUsage` (from `utils/formatters.ts`, whose text is irrelevant
here). -/
def renderBackgroundChunk (fmt : Nat → String) : ShellOutputEvent → String
  | ShellOutputEvent.data chunk => chunk
  | ShellOutputEvent.binaryDetected => "[Binary output detected]"
  | ShellOutputEvent.binaryProgress bytesReceived =>
    "[Binary output: " ++ fmt bytesReceived ++ " received]"

/-- Modelled from the spec: `ShellExecutionService.execute` itself
(`packages/core/src/services/shellExecutionService.ts` is not in the source
tree).  Per §4.2 the engine hands back its handle synchronously once the OS
process is spawned, and per §5 output chunks are delivered only at suspension
points; in `shell.ts` the `registerProcess` call follows the spawn await with
no intervening suspension, so a background launch is: registration of a fresh
`running` record (with the wired output callback), followed by the ordered
delivery of the execution's output events, each routed through
`service.addOutput(bashId, ·)` — never into a throwaway buffer. -/
def backgroundLaunchAndDeliver (maxBufferLines : Nat) (fmt : Nat → String)
    (st : ServiceState) (bashId : String) (pid : Option Nat) (command : String)
    (now : Nat) (events : List ShellOutputEvent) : ServiceState :=
  (events.map (renderBackgroundChunk fmt)).foldl
    (fun s out => addOutput maxBufferLines s bashId out)
    (registerProcess st bashId pid command true now)

/-- Modelled from the spec: the engine's `ExecutionResult`
(`shellExecutionService.ts` is not in the source tree; §4.2: aggregated
output, nullable exit code, nullable terminating signal, nullable pid,
`aborted` flag, in-band error). -/
structure ShellExecutionResult where
  output : String
  exitCode : Option Int
  signal : Option String
  aborted : Bool
  pid : Option Nat
  error : Option String
deriving DecidableEq, Repr

/-- The `{llmContent, returnDisplay}` pair a tool invocation returns. -/
structure ToolResultM where
  llmContent : String
  returnDisplay : String
deriving DecidableEq, Repr

/-- JavaScript `s || d` on a string: the empty string is falsy. -/
def jsOrString (s d : String) : String := if s.length = 0 then d else s

/-- JavaScript `String.prototype.replace(pattern, repl)` with a string
pattern: replaces the first occurrence only. -/
def replaceFirst (s pattern repl : String) : String :=
  match s.splitOn pattern with
  | [] => s
  | [_] => s
  | seg :: rest => seg ++ repl ++ String.intercalate pattern rest

/-- `${result.exitCode ?? '(none)'}`. -/
def showExitCodeOrNone (exitCode : Option Int) : String :=
  match exitCode with
  | some n => toString n
  | none => "(none)"

/-- Everything `ShellToolInvocation.execute` needs after the engine result
lands, for the foreground narrative (lines 338–419 of `shell.ts`). -/
structure ForegroundContext where
  userCommand : String
  commandToExecute : String
  directoryParam : Option String
  effectiveTimeout : Nat
  debugMode : Bool
  backgroundPIDs : List Nat

/-- The foreground result assembly of `shell.ts`: the timeout check
(`timeoutController.signal.aborted && !signal.aborted`), the abort narrative,
the joined field report, and the display-message fallback chain.  (The
optional summarizer is configured off in this core and skipped.) -/
def foregroundToolResult (ctx : ForegroundContext)
    (timeoutSignalAborted callerAborted : Bool)
    (result : ShellExecutionResult) : ToolResultM :=
  if timeoutSignalAborted && !callerAborted then
    { llmContent := "Command exceeded timeout of " ++ toString ctx.effectiveTimeout ++
        "ms and was terminated.\nPartial output:\n" ++
        jsOrString result.output "(no output before timeout)"
      returnDisplay := "Command timed out after " ++ toString ctx.effectiveTimeout ++ "ms" }
  else
    let llmContent :=
      if result.aborted then
        if 0 < result.output.trim.length then
          "Command was cancelled by user before it could complete." ++
            " Below is the output before it was cancelled:\n" ++ result.output
        else
          "Command was cancelled by user before it could complete." ++
            " There was no output before it was cancelled."
      else
        let finalError :=
          match result.error with
          | some msg => replaceFirst msg ctx.commandToExecute ctx.userCommand
          | none => "(none)"
        String.intercalate "\n"
          [ "Command: " ++ ctx.userCommand,
            "Directory: " ++
              (match ctx.directoryParam with
               | some d => jsOrString d "(root)"
               | none => "(root)"),
            "Output: " ++ jsOrString result.output "(empty)",
            "Error: " ++ finalError,
            "Exit Code: " ++ showExitCodeOrNone result.exitCode,
            "Signal: " ++ (result.signal.getD "(none)"),
            "Background PIDs: " ++
              (if ctx.backgroundPIDs.isEmpty then "(none)"
               else String.intercalate ", " (ctx.backgroundPIDs.map toString)),
            "Process Group PGID: " ++
              (match result.pid with
               | some n => toString n
               | none => "(none)") ]
    let returnDisplay :=
      if ctx.debugMode then llmContent
      else if 0 < result.output.trim.length then result.output
      else if result.aborted then "Command cancelled by user."
      else
        match result.signal with
        | some sig => "Command terminated by signal: " ++ sig
        | none =>
          match result.error with
          | some msg => "Command failed: " ++ msg
          | none =>
            match result.exitCode with
            | some code => if code != 0 then "Command exited with code: " ++ toString code else ""
            | none => ""
    { llmContent := llmContent, returnDisplay := returnDisplay }

/-- `this.params.timeout || 120000` (`undefined` and `0` are falsy), then
`Math.min(timeout, 600000)`. -/
def effectiveTimeoutOf (timeoutParam : Option Nat) : Nat :=
  min (jsOrNat timeoutParam 120000) 600000

/-- The foreground path of `ShellToolInvocation.execute` as a function of the
observable cancellation facts: `callerAbortedStart` is `signal.aborted` at the
pre-spawn check (line 174), `timerFired` whether the timeout timer fired, and
`callerAbortedEnd` is `signal.aborted` after the result landed.  The abort
listener forwards caller aborts into the timeout controller, so the
timeout-controller signal is their disjunction.  The second component counts
how many OS processes were spawned (`ShellExecutionService.execute` calls). -/
def executeForeground (timeoutParam : Option Nat)
    (userCommand commandToExecute : String) (directoryParam : Option String)
    (debugMode : Bool) (backgroundPIDs : List Nat)
    (callerAbortedStart timerFired callerAbortedEnd : Bool)
    (result : ShellExecutionResult) : ToolResultM × Nat :=
  let effectiveTimeout := effectiveTimeoutOf timeoutParam
  if callerAbortedStart then
    ({ llmContent := "Command was cancelled by user before it could start."
       returnDisplay := "Command cancelled by user." }, 0)
  else
    let timeoutSignalAborted := timerFired || callerAbortedEnd
    (foregroundToolResult
      { userCommand := userCommand
        commandToExecute := commandToExecute
        directoryParam := directoryParam
        effectiveTimeout := effectiveTimeout
        debugMode := debugMode
        backgroundPIDs := backgroundPIDs }
      timeoutSignalAborted callerAbortedEnd result, 1)

/-- An uneventful engine result used by the runner scenarios. -/
def demoResult : ShellExecutionResult :=
  { output := "", exitCode := some 0, signal := none, aborted := false,
    pid := some 5, error := none }

/-- A partial-output engine result of a run cut short by the timeout. -/
def demoTimeoutResult : ShellExecutionResult :=
  { output := "tick\n", exitCode := none, signal := some "SIGTERM", aborted := true,
    pid := some 5, error := none }

/-- The record stored for `p1` after one two-line append to `demoReg` with the
real bound. -/
def demoP1ab : BackgroundProcess :=
  { id := "p1", pid := some 7, command := "npm run dev", status := PStatus.running,
    outputBuffer := ["a", "b"] }

theorem mapGet_mapSet_self {α : Type} (m : List (String × α)) (k : String) (v : α) :
    mapGet (mapSet m k v) k = some v := by
  induction m with
  | nil => simp [mapGet, mapSet]
  | cons kv rest ih =>
    by_cases h : kv.1 = k
    · simp [mapGet, mapSet, h]
    · simp [mapGet, mapSet, h, ih]

theorem mapGet_mapSet_ne {α : Type} (m : List (String × α)) (k k' : String) (v : α)
    (h : k' ≠ k) : mapGet (mapSet m k v) k' = mapGet m k' := by
  have h' : ¬(k = k') := fun hh => h hh.symm
  induction m with
  | nil => simp [mapGet, mapSet, h']
  | cons kv rest ih =>
    by_cases hk : kv.1 = k
    · simp [mapGet, mapSet, hk, h']
    · by_cases hk' : kv.1 = k'
      · simp [mapGet, mapSet, hk, hk', h]
      · simp [mapGet, mapSet, hk, hk', ih]

theorem mapGet_mapValues {α β : Type} (f : α → β) (m : List (String × α)) (k : String) :
    mapGet (m.map (fun kv => (kv.1, f kv.2))) k = (mapGet m k).map f := by
  induction m with
  | nil => simp [mapGet]
  | cons kv rest ih =>
    by_cases h : kv.1 = k
    · simp [mapGet, h]
    · simp [mapGet, h, ih]

theorem lastN_of_le {α : Type} (n : Nat) (l : List α) (h : l.length ≤ n) :
    lastN n l = l := by
  unfold lastN
  have hz : l.length - n = 0 := Nat.sub_eq_zero_of_le h
  simp [hz]

theorem length_lastN_le {α : Type} (n : Nat) (l : List α) :
    (lastN n l).length ≤ n := by
  unfold lastN
  rw [List.length_drop]
  omega

/-- Keeping the last `n` elements commutes with appending: truncating the
accumulated buffer at every step gives the same result as truncating once at
the end. -/
theorem lastN_append_lastN {α : Type} (n : Nat) (a b : List α) :
    lastN n (lastN n a ++ b) = lastN n (a ++ b) := by
  by_cases h : a.length ≤ n
  · rw [lastN_of_le n a h]
  · have hlt : n < a.length := Nat.lt_of_not_le h
    unfold lastN
    have hk : a.length - n ≤ a.length := Nat.sub_le _ _
    rw [← List.drop_append_of_le_length hk, List.drop_drop]
    congr 1
    simp only [List.length_drop, List.length_append]
    omega

theorem addOutputRecord_outputBuffer (maxBufferLines : Nat)
    (p : BackgroundProcess) (output : String) :
    (addOutputRecord maxBufferLines p output).outputBuffer =
      lastN maxBufferLines (p.outputBuffer ++ splitOutputLines output) := by
  unfold addOutputRecord
  by_cases hb : (p.outputBuffer ++ splitOutputLines output).length > maxBufferLines
  · rw [if_pos hb]; rfl
  · rw [if_neg hb, lastN_of_le _ _ (Nat.le_of_not_lt hb)]

theorem addOutputRecord_status (maxBufferLines : Nat) (p : BackgroundProcess)
    (output : String) :
    (addOutputRecord maxBufferLines p output).status = p.status := by
  unfold addOutputRecord
  split <;> rfl

theorem addOutputRecord_id (maxBufferLines : Nat) (p : BackgroundProcess)
    (output : String) :
    (addOutputRecord maxBufferLines p output).id = p.id := by
  unfold addOutputRecord
  split <;> rfl

theorem addOutputRecord_fields (maxBufferLines : Nat) (p : BackgroundProcess)
    (output : String) :
    (addOutputRecord maxBufferLines p output).exitCode = p.exitCode ∧
    (addOutputRecord maxBufferLines p output).startTime = p.startTime ∧
    (addOutputRecord maxBufferLines p output).endTime = p.endTime ∧
    (addOutputRecord maxBufferLines p output).hasAbortController = p.hasAbortController := by
  unfold addOutputRecord
  split <;> exact ⟨rfl, rfl, rfl, rfl⟩

theorem addOutput_eq (maxBufferLines : Nat) (st : ServiceState)
    (id output : String) (p : BackgroundProcess)
    (h : mapGet st.processes id = some p) :
    addOutput maxBufferLines st id output =
      { st with processes := mapSet st.processes id (addOutputRecord maxBufferLines p output) } := by
  unfold addOutput
  rw [h]

theorem addOutput_get_self (maxBufferLines : Nat) (st : ServiceState)
    (id output : String) (p : BackgroundProcess)
    (h : mapGet st.processes id = some p) :
    mapGet (addOutput maxBufferLines st id output).processes id =
      some (addOutputRecord maxBufferLines p output) := by
  rw [addOutput_eq maxBufferLines st id output p h]
  exact mapGet_mapSet_self _ _ _

/-- `addOutput` never touches the record of another id, and never creates or
deletes records. -/
theorem addOutput_other (maxBufferLines : Nat) (st : ServiceState)
    (id id' output : String) (h : id' ≠ id) :
    mapGet (addOutput maxBufferLines st id output).processes id' =
      mapGet st.processes id' := by
  unfold addOutput
  cases hm : mapGet st.processes id with
  | none => rfl
  | some p => simp [mapGet_mapSet_ne _ _ _ _ h]

/-- C1.  For every sequence of `addOutput` calls on a registered background
process, the length of its output buffer is at most `MAX_BUFFER_LINES`
(10,000) after every call.  The initial state `st` is universally quantified,
so this bounds the buffer right after each individual call of an arbitrary
call sequence: whatever state the earlier calls produced, the state after the
next call satisfies the bound. -/
theorem c1_buffer_bound (st : ServiceState) (id output : String)
    (p' : BackgroundProcess)
    (h : mapGet (addOutput MAX_BUFFER_LINES st id output).processes id = some p') :
    p'.outputBuffer.length ≤ MAX_BUFFER_LINES := by
  cases hm : mapGet st.processes id with
  | none =>
    unfold addOutput at h
    simp [hm] at h
  | some p =>
    rw [addOutput_get_self MAX_BUFFER_LINES st id output p hm] at h
    cases h
    rw [addOutputRecord_outputBuffer]
    exact length_lastN_le _ _

theorem statusEvolves_refl (st : ServiceState) : StatusEvolves st st :=
  fun _ q h => ⟨q, h, Or.inl rfl⟩

theorem statusEvolves_trans {st1 st2 st3 : ServiceState}
    (h12 : StatusEvolves st1 st2) (h23 : StatusEvolves st2 st3) :
    StatusEvolves st1 st3 := by
  intro id q h
  obtain ⟨q2, hq2, hs2⟩ := h12 id q h
  obtain ⟨q3, hq3, hs3⟩ := h23 id q2 hq2
  refine ⟨q3, hq3, ?_⟩
  cases hs2 with
  | inl e2 =>
    cases hs3 with
    | inl e3 => exact Or.inl (e3.trans e2)
    | inr n3 => exact Or.inr n3
  | inr n2 =>
    cases hs3 with
    | inl e3 => exact Or.inr (e3 ▸ n2)
    | inr n3 => exact Or.inr n3

theorem statusEvolves_addOutput (maxBufferLines : Nat) (st : ServiceState)
    (id output : String) :
    StatusEvolves st (addOutput maxBufferLines st id output) := by
  intro id' q h
  by_cases he : id' = id
  · subst he
    refine ⟨addOutputRecord maxBufferLines q output,
      addOutput_get_self maxBufferLines st id' output q h, Or.inl ?_⟩
    exact addOutputRecord_status maxBufferLines q output
  · exact ⟨q, (addOutput_other maxBufferLines st id id' output he).trans h, Or.inl rfl⟩

theorem statusEvolves_markProcessCompleted (st : ServiceState) (id : String)
    (exitCode : Option Int) (now : Nat) :
    StatusEvolves st (markProcessCompleted st id exitCode now) := by
  intro id' q h
  unfold markProcessCompleted
  cases hm : mapGet st.processes id with
  | none => exact ⟨q, h, Or.inl rfl⟩
  | some p =>
    by_cases he : id' = id
    · subst he
      refine ⟨_, mapGet_mapSet_self _ _ _, Or.inr ?_⟩
      intro hcontra
      exact PStatus.noConfusion hcontra
    · exact ⟨q, (mapGet_mapSet_ne _ _ _ _ he).trans h, Or.inl rfl⟩

theorem statusEvolves_markProcessTerminated (st : ServiceState) (id : String)
    (signal : String) (now : Nat) :
    StatusEvolves st (markProcessTerminated st id signal now) := by
  intro id' q h
  unfold markProcessTerminated
  cases hm : mapGet st.processes id with
  | none => exact ⟨q, h, Or.inl rfl⟩
  | some p =>
    by_cases he : id' = id
    · subst he
      refine ⟨_, mapGet_mapSet_self _ _ _, Or.inr ?_⟩
      intro hcontra
      exact PStatus.noConfusion hcontra
    · exact ⟨q, (mapGet_mapSet_ne _ _ _ _ he).trans h, Or.inl rfl⟩

theorem statusEvolves_markProcessFailed (maxBufferLines : Nat) (st : ServiceState)
    (id message : String) (now : Nat) :
    StatusEvolves st (markProcessFailed maxBufferLines st id message now) := by
  unfold markProcessFailed
  cases hm : mapGet st.processes id with
  | none => exact statusEvolves_refl st
  | some p =>
    have h1 : StatusEvolves st
        { st with processes := mapSet st.processes id (failRecord p now) } := by
      intro id' q h
      by_cases he : id' = id
      · subst he
        refine ⟨_, mapGet_mapSet_self _ _ _, Or.inr ?_⟩
        intro hcontra
        exact PStatus.noConfusion hcontra
      · exact ⟨q, (mapGet_mapSet_ne _ _ _ _ he).trans h, Or.inl rfl⟩
    exact statusEvolves_trans h1 (statusEvolves_addOutput _ _ _ _)

theorem statusEvolves_applyEvent (maxBufferLines : Nat) (st : ServiceState)
    (ev : AsyncEvent) : StatusEvolves st (applyEvent maxBufferLines st ev) := by
  cases ev with
  | addOut id output => exact statusEvolves_addOutput _ _ _ _
  | settleOk id exitCode now => exact statusEvolves_markProcessCompleted _ _ _ _
  | settleErr id message now => exact statusEvolves_markProcessFailed _ _ _ _ _

theorem statusEvolves_foldEvents (maxBufferLines : Nat) (events : List AsyncEvent) :
    ∀ st : ServiceState, StatusEvolves st (events.foldl (applyEvent maxBufferLines) st) := by
  induction events with
  | nil => exact fun st => statusEvolves_refl st
  | cons ev rest ih =>
    intro st
    exact statusEvolves_trans (statusEvolves_applyEvent maxBufferLines st ev)
      (ih (applyEvent maxBufferLines st ev))

theorem markProcessTerminated_get_self (st : ServiceState) (id signal : String)
    (now : Nat) (p : BackgroundProcess) (h : mapGet st.processes id = some p) :
    mapGet (markProcessTerminated st id signal now).processes id =
      some { p with status := PStatus.terminated, terminationSignal := some signal,
                    endTime := some now } := by
  unfold markProcessTerminated
  rw [h]
  exact mapGet_mapSet_self _ _ _

theorem killProcess_running_eq (maxBufferLines : Nat) (st : ServiceState)
    (id : String) (interim : List AsyncEvent) (now randMem randFd : Nat)
    (p : BackgroundProcess) (h : mapGet st.processes id = some p)
    (hs : p.status = PStatus.running) :
    (killProcess maxBufferLines st id interim now randMem randFd).1.success = true ∧
    (killProcess maxBufferLines st id interim now randMem randFd).2 =
      markProcessTerminated (killGraceState maxBufferLines st interim p) id
        (killTerminationMethod (killGraceState maxBufferLines st interim p) id p) now := by
  unfold killProcess
  simp only [h, hs]
  exact ⟨trivial, trivial⟩

theorem killProcess_nonrunning_eq (maxBufferLines : Nat) (st : ServiceState)
    (id : String) (interim : List AsyncEvent) (now randMem randFd : Nat)
    (p : BackgroundProcess) (h : mapGet st.processes id = some p)
    (hs : p.status ≠ PStatus.running) :
    (killProcess maxBufferLines st id interim now randMem randFd).1.success = false ∧
    (killProcess maxBufferLines st id interim now randMem randFd).2 = st := by
  unfold killProcess
  simp only [h]
  cases hst : p.status with
  | running => exact absurd hst hs
  | completed => simp only [hst]; exact ⟨trivial, trivial⟩
  | failed => simp only [hst]; exact ⟨trivial, trivial⟩
  | terminated => simp only [hst]; exact ⟨trivial, trivial⟩

theorem killProcess_terminated_eq (maxBufferLines : Nat) (st : ServiceState)
    (id : String) (interim : List AsyncEvent) (now randMem randFd : Nat)
    (p : BackgroundProcess) (h : mapGet st.processes id = some p)
    (hs : p.status = PStatus.terminated) :
    killProcess maxBufferLines st id interim now randMem randFd =
      ({ success := false
         message := "Process " ++ id ++ " was already terminated" }, st) := by
  unfold killProcess
  simp only [h, hs]

theorem statusEvolves_killGraceState (maxBufferLines : Nat) (st : ServiceState)
    (interim : List AsyncEvent) (p : BackgroundProcess) :
    StatusEvolves st (killGraceState maxBufferLines st interim p) := by
  unfold killGraceState
  cases p.hasAbortController with
  | true => simpa using statusEvolves_foldEvents maxBufferLines interim st
  | false => simpa using statusEvolves_refl st

theorem statusEvolves_killProcess (maxBufferLines : Nat) (st : ServiceState)
    (id : String) (interim : List AsyncEvent) (now randMem randFd : Nat) :
    StatusEvolves st (killProcess maxBufferLines st id interim now randMem randFd).2 := by
  cases hm : mapGet st.processes id with
  | none =>
    unfold killProcess
    rw [hm]
    exact statusEvolves_refl st
  | some p =>
    by_cases hs : p.status = PStatus.running
    · rw [(killProcess_running_eq maxBufferLines st id interim now randMem randFd p hm hs).2]
      exact statusEvolves_trans (statusEvolves_killGraceState maxBufferLines st interim p)
        (statusEvolves_markProcessTerminated _ _ _ _)
    · rw [(killProcess_nonrunning_eq maxBufferLines st id interim now randMem randFd p hm hs).2]
      exact statusEvolves_refl st

theorem statusEvolves_advanceSet (st : ServiceState) (id consumerId : String)
    (p : BackgroundProcess) (h : mapGet st.processes id = some p) :
    StatusEvolves st { st with processes := mapSet st.processes id (advanceRecord p consumerId) } := by
  intro id' q hq
  by_cases he : id' = id
  · subst he
    have hpq : p = q := by
      have := h.symm.trans hq
      exact Option.some.inj this
    subst hpq
    exact ⟨advanceRecord p consumerId, mapGet_mapSet_self _ _ _, Or.inl rfl⟩
  · exact ⟨q, (mapGet_mapSet_ne _ _ _ _ he).trans hq, Or.inl rfl⟩

theorem getNewOutput_not_found (engine : RegexEngine) (st : ServiceState)
    (id consumerId : String) (filter : Option String)
    (h : mapGet st.processes id = none) :
    getNewOutput engine st id consumerId filter =
      ({ output := []
         status := "not_found"
         error := some ("No background process found with ID: " ++ id) }, st) := by
  unfold getNewOutput
  simp only [h]

theorem getNewOutput_no_filter_eq (engine : RegexEngine) (st : ServiceState)
    (id consumerId : String) (p : BackgroundProcess)
    (h : mapGet st.processes id = some p) :
    getNewOutput engine st id consumerId none =
      ({ output := p.outputBuffer.drop ((mapGet p.lastReadIndex consumerId).getD 0)
         status := statusString p.status
         exitCode := p.exitCode },
       { st with processes := mapSet st.processes id (advanceRecord p consumerId) }) := by
  unfold getNewOutput
  simp only [h]

theorem getNewOutput_empty_filter_eq (engine : RegexEngine) (st : ServiceState)
    (id consumerId f : String) (p : BackgroundProcess)
    (h : mapGet st.processes id = some p) (hf : ¬0 < f.length) :
    getNewOutput engine st id consumerId (some f) =
      ({ output := p.outputBuffer.drop ((mapGet p.lastReadIndex consumerId).getD 0)
         status := statusString p.status
         exitCode := p.exitCode },
       { st with processes := mapSet st.processes id (advanceRecord p consumerId) }) := by
  unfold getNewOutput
  simp only [h, hf, if_false]

theorem getNewOutput_invalid_filter_eq (engine : RegexEngine) (st : ServiceState)
    (id consumerId f : String) (p : BackgroundProcess)
    (h : mapGet st.processes id = some p) (hf : 0 < f.length)
    (hc : engine.compile f = none) :
    getNewOutput engine st id consumerId (some f) =
      ({ output := []
         status := statusString p.status
         exitCode := p.exitCode
         error := some ("Invalid regex filter: " ++ f) }, st) := by
  unfold getNewOutput
  simp only [h, hf, if_true, hc]

theorem getNewOutput_valid_filter_eq (engine : RegexEngine) (st : ServiceState)
    (id consumerId f : String) (test : String → Bool) (p : BackgroundProcess)
    (h : mapGet st.processes id = some p) (hf : 0 < f.length)
    (hc : engine.compile f = some test) :
    getNewOutput engine st id consumerId (some f) =
      ({ output := ((p.outputBuffer.drop ((mapGet p.lastReadIndex consumerId).getD 0)).filter test)
         status := statusString p.status
         exitCode := p.exitCode },
       { st with processes := mapSet st.processes id (advanceRecord p consumerId) }) := by
  unfold getNewOutput
  simp only [h, hf, if_true, hc]

theorem statusEvolves_getNewOutput (engine : RegexEngine) (st : ServiceState)
    (id consumerId : String) (filter : Option String) :
    StatusEvolves st (getNewOutput engine st id consumerId filter).2 := by
  cases hm : mapGet st.processes id with
  | none =>
    rw [getNewOutput_not_found engine st id consumerId filter hm]
    exact statusEvolves_refl st
  | some p =>
    cases filter with
    | none =>
      rw [getNewOutput_no_filter_eq engine st id consumerId p hm]
      exact statusEvolves_advanceSet st id consumerId p hm
    | some f =>
      by_cases hf : 0 < f.length
      · cases hc : engine.compile f with
        | none =>
          rw [getNewOutput_invalid_filter_eq engine st id consumerId f p hm hf hc]
          exact statusEvolves_refl st
        | some test =>
          rw [getNewOutput_valid_filter_eq engine st id consumerId f test p hm hf hc]
          exact statusEvolves_advanceSet st id consumerId p hm
      · rw [getNewOutput_empty_filter_eq engine st id consumerId f p hm hf]
        exact statusEvolves_advanceSet st id consumerId p hm

theorem statusEvolves_applyOp (maxBufferLines : Nat) (st : ServiceState)
    (op : SupervisorOp) : StatusEvolves st (applyOp maxBufferLines st op) := by
  cases op with
  | opAddOutput id output => exact statusEvolves_addOutput _ _ _ _
  | opPoll engine id consumerId filter => exact statusEvolves_getNewOutput _ _ _ _ _
  | opKill id interim now randMem randFd => exact statusEvolves_killProcess _ _ _ _ _ _ _
  | opSettleOk id exitCode now => exact statusEvolves_markProcessCompleted _ _ _ _
  | opSettleErr id message now => exact statusEvolves_markProcessFailed _ _ _ _ _

theorem mapGet_mapSub (m : List (String × Nat)) (k : String) (o : Nat) :
    mapGet (m.map (fun kv => (kv.1, kv.2 - o))) k = (mapGet m k).map (fun x => x - o) := by
  induction m with
  | nil => simp [mapGet]
  | cons kv rest ih =>
    by_cases h : kv.1 = k
    · simp [mapGet, h]
    · simp [mapGet, h, ih]

theorem addOutputRecord_lastReadIndex_overflow (maxBufferLines : Nat)
    (p : BackgroundProcess) (output : String)
    (hb : (p.outputBuffer ++ splitOutputLines output).length > maxBufferLines) :
    (addOutputRecord maxBufferLines p output).lastReadIndex =
      p.lastReadIndex.map
        (fun kv =>
          (kv.1, kv.2 - ((p.outputBuffer ++ splitOutputLines output).length - maxBufferLines))) := by
  unfold addOutputRecord
  rw [if_pos hb]

/-- C2.  When `addOutput` evicts lines from the front, every consumer's read
offset is decreased by the eviction count, floored at 0 (offsets are `Nat`, so
no offset is ever negative); and in the concrete scenario with
`MAX_BUFFER_LINES = 3`, five lines appended one at a time and a consumer `c`
that read after line 2 (offset 2), the consumer's next poll returns exactly
lines 3–5 — no duplicates, no gaps — and its stored offset has been rebased
to 0. -/
theorem c2_eviction_rebasing :
    (∀ (maxBufferLines : Nat) (st : ServiceState) (id output : String)
       (p : BackgroundProcess) (consumerId : String) (i : Nat),
       mapGet st.processes id = some p →
       (p.outputBuffer ++ splitOutputLines output).length > maxBufferLines →
       mapGet p.lastReadIndex consumerId = some i →
       ∃ p', mapGet (addOutput maxBufferLines st id output).processes id = some p' ∧
         mapGet p'.lastReadIndex consumerId =
           some (i - ((p.outputBuffer ++ splitOutputLines output).length - maxBufferLines))) ∧
    (getNewOutput demoEngine demoS5 "p1" "c" none).1.output = ["l3", "l4", "l5"] ∧
    (mapGet demoS5.processes "p1").map (fun q => (mapGet q.lastReadIndex "c").getD 0) =
      some 0 := by
  refine ⟨?_, by rfl, by rfl⟩
  intro maxBufferLines st id output p consumerId i hp hb hi
  refine ⟨addOutputRecord maxBufferLines p output,
    addOutput_get_self maxBufferLines st id output p hp, ?_⟩
  rw [addOutputRecord_lastReadIndex_overflow maxBufferLines p output hb]
  rw [mapGet_mapSub, hi]
  rfl

/-- C2 witness: the general rebasing clause applied to the concrete step that
appends `l4` to the full buffer of `demoS3` (overflow 1, offset 2 becomes 1). -/
theorem c2_eviction_rebasing_witness :
    mapGet demoS3.processes "p1" = some demoP3 ∧
    (demoP3.outputBuffer ++ splitOutputLines "l4").length > 3 ∧
    mapGet demoP3.lastReadIndex "c" = some 2 ∧
    ∃ p', mapGet (addOutput 3 demoS3 "p1" "l4").processes "p1" = some p' ∧
      mapGet p'.lastReadIndex "c" =
        some (2 - ((demoP3.outputBuffer ++ splitOutputLines "l4").length - 3)) :=
  ⟨by rfl, by decide, by rfl,
    c2_eviction_rebasing.1 3 demoS3 "p1" "l4" demoP3 "c" 2 (by rfl) (by decide) (by rfl)⟩

/-- C3 counterexample: a process killed while running is `terminated`
(terminal), yet when its result promise settles afterwards,
`markProcessCompleted` overwrites the status unconditionally and the record
transitions `terminated → completed` — a terminal state is left by an
ordinary operation, not by eviction, contradicting the claim. -/
theorem c3_counterexample :
    (mapGet c3StateKilled.processes "bash_1_k3").map BackgroundProcess.status =
      some PStatus.terminated ∧
    (mapGet c3StateSettled.processes "bash_1_k3").map BackgroundProcess.status =
      some PStatus.completed := by
  exact ⟨by rfl, by rfl⟩

/-- C3 amended: every supervisor operation keeps a registered record
registered (only eviction removes it), and whenever an operation changes a
record's status the new status is one of the terminal states `completed`,
`failed`, `terminated` — `running` is never re-entered.  (The original
claim's stronger clause — that terminal states are never left — is refuted by
`c3_counterexample`.) -/
theorem c3_status_transitions (op : SupervisorOp) (st : ServiceState) (id : String)
    (p : BackgroundProcess) (h : mapGet st.processes id = some p) :
    ∃ p', mapGet (applyOp MAX_BUFFER_LINES st op).processes id = some p' ∧
      (p'.status = p.status ∨ p'.status ≠ PStatus.running) :=
  statusEvolves_applyOp MAX_BUFFER_LINES st op id p h

/-- C3 witness: the amended theorem applied to the settle-after-kill step. -/
theorem c3_status_transitions_witness :
    mapGet c3StateKilled.processes "bash_1_k3" = some c3KilledP ∧
    ∃ p', mapGet (applyOp MAX_BUFFER_LINES c3StateKilled
        (SupervisorOp.opSettleOk "bash_1_k3" (some 0) 2000)).processes "bash_1_k3" = some p' ∧
      (p'.status = c3KilledP.status ∨ p'.status ≠ PStatus.running) :=
  ⟨by rfl, c3_status_transitions (SupervisorOp.opSettleOk "bash_1_k3" (some 0) 2000)
    c3StateKilled "bash_1_k3" c3KilledP (by rfl)⟩

/-- C5.  A poll with a syntactically invalid regex filter returns an error
result and leaves the whole service state — in particular the consumer's
offset — unchanged; a subsequent poll by the same consumer with no filter
returns exactly what it would have returned had the invalid call never
happened. -/
theorem c5_invalid_filter_no_advance (engine : RegexEngine) (st : ServiceState)
    (id consumerId f : String) (p : BackgroundProcess)
    (hp : mapGet st.processes id = some p) (hf : 0 < f.length)
    (hc : engine.compile f = none) :
    (getNewOutput engine st id consumerId (some f)).2 = st ∧
    (getNewOutput engine st id consumerId (some f)).1.error =
      some ("Invalid regex filter: " ++ f) ∧
    (getNewOutput engine st id consumerId (some f)).1.output = [] ∧
    getNewOutput engine (getNewOutput engine st id consumerId (some f)).2 id consumerId none =
      getNewOutput engine st id consumerId none := by
  rw [getNewOutput_invalid_filter_eq engine st id consumerId f p hp hf hc]
  exact ⟨rfl, rfl, rfl, rfl⟩

/-- C5 witness: polling `p1` with the invalid pattern `"("` on the concrete
two-line registry. -/
theorem c5_invalid_filter_no_advance_witness :
    mapGet demoS2.processes "p1" = some demoP2 ∧
    0 < "(".length ∧
    demoEngine.compile "(" = none ∧
    ((getNewOutput demoEngine demoS2 "p1" "c" (some "(")).2 = demoS2 ∧
     (getNewOutput demoEngine demoS2 "p1" "c" (some "(")).1.error =
       some ("Invalid regex filter: " ++ "(") ∧
     (getNewOutput demoEngine demoS2 "p1" "c" (some "(")).1.output = [] ∧
     getNewOutput demoEngine (getNewOutput demoEngine demoS2 "p1" "c" (some "(")).2 "p1" "c" none =
       getNewOutput demoEngine demoS2 "p1" "c" none) :=
  ⟨by rfl, by decide, by rfl,
    c5_invalid_filter_no_advance demoEngine demoS2 "p1" "c" "(" demoP2
      (by rfl) (by decide) (by rfl)⟩

/-- C6.  A poll with a valid filter advances the consumer's offset to the
buffer's current length regardless of how many lines matched (its returned
lines are the filtered slice), so a repeat poll — with or without the filter —
offers nothing: filtered-out lines are never re-offered to that consumer. -/
theorem c6_filter_advances_offset (engine : RegexEngine) (st : ServiceState)
    (id consumerId f : String) (test : String → Bool) (p : BackgroundProcess)
    (hp : mapGet st.processes id = some p) (hf : 0 < f.length)
    (hc : engine.compile f = some test) :
    (getNewOutput engine st id consumerId (some f)).1.output =
      (p.outputBuffer.drop ((mapGet p.lastReadIndex consumerId).getD 0)).filter test ∧
    ∃ p', mapGet (getNewOutput engine st id consumerId (some f)).2.processes id = some p' ∧
      mapGet p'.lastReadIndex consumerId = some p.outputBuffer.length ∧
      p'.outputBuffer = p.outputBuffer ∧
      (getNewOutput engine (getNewOutput engine st id consumerId (some f)).2 id consumerId
          (some f)).1.output = [] ∧
      (getNewOutput engine (getNewOutput engine st id consumerId (some f)).2 id consumerId
          none).1.output = [] := by
  rw [getNewOutput_valid_filter_eq engine st id consumerId f test p hp hf hc]
  refine ⟨rfl, advanceRecord p consumerId, mapGet_mapSet_self _ _ _,
    mapGet_mapSet_self _ _ _, rfl, ?_, ?_⟩
  · rw [getNewOutput_valid_filter_eq engine _ id consumerId f test (advanceRecord p consumerId)
      (mapGet_mapSet_self _ _ _) hf hc]
    show ((advanceRecord p consumerId).outputBuffer.drop
      ((mapGet (advanceRecord p consumerId).lastReadIndex consumerId).getD 0)).filter test = []
    rw [show (advanceRecord p consumerId).lastReadIndex =
      mapSet p.lastReadIndex consumerId p.outputBuffer.length from rfl,
      mapGet_mapSet_self]
    simp [advanceRecord, List.drop_length]
  · rw [getNewOutput_no_filter_eq engine _ id consumerId (advanceRecord p consumerId)
      (mapGet_mapSet_self _ _ _)]
    show (advanceRecord p consumerId).outputBuffer.drop
      ((mapGet (advanceRecord p consumerId).lastReadIndex consumerId).getD 0) = []
    rw [show (advanceRecord p consumerId).lastReadIndex =
      mapSet p.lastReadIndex consumerId p.outputBuffer.length from rfl,
      mapGet_mapSet_self]
    simp [advanceRecord, List.drop_length]

/-- C6 witness: filtering the three-line buffer of `demoS3` with pattern
`"l3"` (one match), after which the consumer offset sits at 3. -/
theorem c6_filter_advances_offset_witness :
    mapGet demoS3.processes "p1" = some demoP3 ∧
    0 < "l3".length ∧
    demoEngine.compile "l3" = some (fun line => line == "l3") ∧
    ((getNewOutput demoEngine demoS3 "p1" "c" (some "l3")).1.output =
      (demoP3.outputBuffer.drop ((mapGet demoP3.lastReadIndex "c").getD 0)).filter
        (fun line => line == "l3") ∧
     ∃ p', mapGet (getNewOutput demoEngine demoS3 "p1" "c" (some "l3")).2.processes "p1" =
        some p' ∧
      mapGet p'.lastReadIndex "c" = some demoP3.outputBuffer.length ∧
      p'.outputBuffer = demoP3.outputBuffer ∧
      (getNewOutput demoEngine (getNewOutput demoEngine demoS3 "p1" "c" (some "l3")).2 "p1" "c"
          (some "l3")).1.output = [] ∧
      (getNewOutput demoEngine (getNewOutput demoEngine demoS3 "p1" "c" (some "l3")).2 "p1" "c"
          none).1.output = []) :=
  ⟨by rfl, by decide, by rfl,
    c6_filter_advances_offset demoEngine demoS3 "p1" "c" "l3" (fun line => line == "l3") demoP3
      (by rfl) (by decide) (by rfl)⟩

/-- C7.  Killing a running process succeeds and leaves it `terminated`
whatever callbacks land during the 500 ms grace window, so a second kill —
again with arbitrary interleavings — reports `success = false` with the
"was already terminated" message; and on any process whose status is already
terminal, `killProcess` returns a descriptive failure (`success = false`)
without touching the state — it never throws (the model is total). -/
theorem c7_terminate_idempotent :
    (∀ (maxBufferLines : Nat) (st : ServiceState) (id : String)
       (p : BackgroundProcess) (interim1 interim2 : List AsyncEvent)
       (now1 now2 rm1 rf1 rm2 rf2 : Nat),
       mapGet st.processes id = some p → p.status = PStatus.running →
       (killProcess maxBufferLines st id interim1 now1 rm1 rf1).1.success = true ∧
       (killProcess maxBufferLines (killProcess maxBufferLines st id interim1 now1 rm1 rf1).2
           id interim2 now2 rm2 rf2).1.success = false ∧
       (killProcess maxBufferLines (killProcess maxBufferLines st id interim1 now1 rm1 rf1).2
           id interim2 now2 rm2 rf2).1.message =
         "Process " ++ id ++ " was already terminated") ∧
    (∀ (maxBufferLines : Nat) (st : ServiceState) (id : String)
       (p : BackgroundProcess) (interim : List AsyncEvent) (now rm rf : Nat),
       mapGet st.processes id = some p → p.status ≠ PStatus.running →
       (killProcess maxBufferLines st id interim now rm rf).1.success = false ∧
       (killProcess maxBufferLines st id interim now rm rf).2 = st) := by
  constructor
  · intro m st id p i1 i2 n1 n2 rm1 rf1 rm2 rf2 h hs
    obtain ⟨hsucc, hstate⟩ := killProcess_running_eq m st id i1 n1 rm1 rf1 p h hs
    obtain ⟨q, hq, _⟩ := statusEvolves_killGraceState m st i1 p id p h
    have hterm := markProcessTerminated_get_self (killGraceState m st i1 p) id
      (killTerminationMethod (killGraceState m st i1 p) id p) n1 q hq
    rw [← hstate] at hterm
    have h2 := killProcess_terminated_eq m (killProcess m st id i1 n1 rm1 rf1).2 id i2 n2
      rm2 rf2 _ hterm rfl
    rw [h2]
    exact ⟨hsucc, rfl, rfl⟩
  · intro m st id p interim now rm rf h hs
    exact killProcess_nonrunning_eq m st id interim now rm rf p h hs

/-- C7 witness: both clauses applied to the concrete registry `c3State0`
(running) and `c3StateKilled` (already terminated). -/
theorem c7_terminate_idempotent_witness :
    (mapGet c3State0.processes "bash_1_k3" = some
        { id := "bash_1_k3", pid := some 42, command := "sleep 100",
          status := PStatus.running } ∧
     (killProcess MAX_BUFFER_LINES c3State0 "bash_1_k3" [] 1000 0 0).1.success = true ∧
     (killProcess MAX_BUFFER_LINES
         (killProcess MAX_BUFFER_LINES c3State0 "bash_1_k3" [] 1000 0 0).2
         "bash_1_k3" [] 2000 3 4).1.success = false ∧
     (killProcess MAX_BUFFER_LINES
         (killProcess MAX_BUFFER_LINES c3State0 "bash_1_k3" [] 1000 0 0).2
         "bash_1_k3" [] 2000 3 4).1.message =
       "Process " ++ "bash_1_k3" ++ " was already terminated") ∧
    ((killProcess MAX_BUFFER_LINES c3StateKilled "bash_1_k3" [] 3000 0 0).1.success = false ∧
     (killProcess MAX_BUFFER_LINES c3StateKilled "bash_1_k3" [] 3000 0 0).2 = c3StateKilled) :=
  ⟨⟨by rfl,
    (c7_terminate_idempotent.1 MAX_BUFFER_LINES c3State0 "bash_1_k3"
      { id := "bash_1_k3", pid := some 42, command := "sleep 100",
        status := PStatus.running } [] [] 1000 2000 0 0 3 4 (by rfl) (by rfl)).1,
    (c7_terminate_idempotent.1 MAX_BUFFER_LINES c3State0 "bash_1_k3"
      { id := "bash_1_k3", pid := some 42, command := "sleep 100",
        status := PStatus.running } [] [] 1000 2000 0 0 3 4 (by rfl) (by rfl)).2.1,
    (c7_terminate_idempotent.1 MAX_BUFFER_LINES c3State0 "bash_1_k3"
      { id := "bash_1_k3", pid := some 42, command := "sleep 100",
        status := PStatus.running } [] [] 1000 2000 0 0 3 4 (by rfl) (by rfl)).2.2⟩,
   c7_terminate_idempotent.2 MAX_BUFFER_LINES c3StateKilled "bash_1_k3" c3KilledP [] 3000 0 0
     (by rfl) (by decide)⟩

/-- C10.  `killProcess` is not a function of the registry state alone: on the
same state, same id and same clock, two calls that differ only in the
`Math.random()` draws report different `resourcesFreed` — the memory and
file-descriptor counts are fabricated from the random generator, not
measured. -/
theorem c10_kill_nondeterministic :
    (killProcess MAX_BUFFER_LINES c10State "bash_9_rng" [] 5000 0 0).1.resourcesFreed =
      some { memory := 10, fileDescriptors := 1 } ∧
    (killProcess MAX_BUFFER_LINES c10State "bash_9_rng" [] 5000 1 1).1.resourcesFreed =
      some { memory := 11, fileDescriptors := 2 } ∧
    (killProcess MAX_BUFFER_LINES c10State "bash_9_rng" [] 5000 0 0).1.resourcesFreed ≠
      (killProcess MAX_BUFFER_LINES c10State "bash_9_rng" [] 5000 1 1).1.resourcesFreed :=
  ⟨by rfl, by rfl, by decide⟩

theorem deliver_buffer (maxBufferLines : Nat) (id : String) :
    ∀ (outputs : List String) (st : ServiceState) (p : BackgroundProcess)
      (acc : List String),
      mapGet st.processes id = some p → p.outputBuffer = lastN maxBufferLines acc →
      ∃ p', mapGet ((outputs.foldl (fun s out => addOutput maxBufferLines s id out)
          st)).processes id = some p' ∧
        p'.outputBuffer =
          lastN maxBufferLines (acc ++ (outputs.map splitOutputLines).flatten) := by
  intro outputs
  induction outputs with
  | nil =>
    intro st p acc h hbuf
    exact ⟨p, h, by simpa using hbuf⟩
  | cons out rest ih =>
    intro st p acc h hbuf
    have h1 := addOutput_get_self maxBufferLines st id out p h
    have hbuf1 : (addOutputRecord maxBufferLines p out).outputBuffer =
        lastN maxBufferLines (acc ++ splitOutputLines out) := by
      rw [addOutputRecord_outputBuffer, hbuf, lastN_append_lastN]
    obtain ⟨p', hp', hbuf'⟩ := ih (addOutput maxBufferLines st id out)
      (addOutputRecord maxBufferLines p out) (acc ++ splitOutputLines out) h1 hbuf1
    refine ⟨p', by simpa using hp', ?_⟩
    rw [hbuf']
    simp [List.append_assoc]

/-- C4.  For every background launch, the process is registered with the
supervisor before any output event is delivered, and every event is routed
through `addOutput` on the registered id: after the launch the id is present
and its buffer holds exactly the (non-empty) lines of all delivered events,
truncated only by the buffer bound — in particular, when the lines fit the
bound, the buffer is exactly all of them and nothing was dropped. -/
theorem c4_register_before_output (maxBufferLines : Nat) (fmt : Nat → String)
    (st : ServiceState) (bashId command : String) (pid : Option Nat) (now : Nat)
    (events : List ShellOutputEvent) :
    ∃ p', mapGet (backgroundLaunchAndDeliver maxBufferLines fmt st bashId pid command now
        events).processes bashId = some p' ∧
      p'.outputBuffer = lastN maxBufferLines
        ((events.map (fun e => splitOutputLines (renderBackgroundChunk fmt e))).flatten) ∧
      (((events.map (fun e => splitOutputLines (renderBackgroundChunk fmt e))).flatten).length ≤
          maxBufferLines →
        p'.outputBuffer =
          (events.map (fun e => splitOutputLines (renderBackgroundChunk fmt e))).flatten) := by
  obtain ⟨p', hp', hbuf⟩ := deliver_buffer maxBufferLines bashId
    (events.map (renderBackgroundChunk fmt)) (registerProcess st bashId pid command true now)
    { id := bashId, pid := pid, command := command, status := PStatus.running,
      startTime := now }
    [] (mapGet_mapSet_self _ _ _) (by simp [lastN])
  refine ⟨p', by simpa [backgroundLaunchAndDeliver] using hp', ?_, ?_⟩
  · rw [hbuf]
    simp [List.map_map]
    rfl
  · intro hle
    rw [hbuf]
    simp [List.map_map]
    rw [lastN_of_le]
    · rfl
    · simpa [List.map_map] using hle

/-- C4 witness: a concrete launch delivering one two-line data chunk. -/
theorem c4_register_before_output_witness :
    ∃ p', mapGet (backgroundLaunchAndDeliver 10000 (fun _ => "") emptyService "bg1" (some 3)
        "make" 0 [ShellOutputEvent.data "a\nb"]).processes "bg1" = some p' ∧
      p'.outputBuffer = lastN 10000
        (([ShellOutputEvent.data "a\nb"].map
          (fun e => splitOutputLines (renderBackgroundChunk (fun _ => "") e))).flatten) ∧
      ((([ShellOutputEvent.data "a\nb"].map
          (fun e => splitOutputLines (renderBackgroundChunk (fun _ => "") e))).flatten).length ≤
          10000 →
        p'.outputBuffer = ([ShellOutputEvent.data "a\nb"].map
          (fun e => splitOutputLines (renderBackgroundChunk (fun _ => "") e))).flatten) :=
  c4_register_before_output 10000 (fun _ => "") emptyService "bg1" "make" (some 3) 0
    [ShellOutputEvent.data "a\nb"]

/-- C8.  If the caller's cancellation signal is already aborted before the
process is started, `execute` returns the "already cancelled" result
immediately and spawns no OS process. -/
theorem c8_precancelled_no_spawn (timeoutParam : Option Nat)
    (userCommand commandToExecute : String) (directoryParam : Option String)
    (debugMode : Bool) (backgroundPIDs : List Nat)
    (callerAbortedStart timerFired callerAbortedEnd : Bool)
    (result : ShellExecutionResult) (h : callerAbortedStart = true) :
    executeForeground timeoutParam userCommand commandToExecute directoryParam debugMode
        backgroundPIDs callerAbortedStart timerFired callerAbortedEnd result =
      ({ llmContent := "Command was cancelled by user before it could start."
         returnDisplay := "Command cancelled by user." }, 0) := by
  subst h
  rfl

/-- C8 witness: a pre-aborted caller signal on a concrete request. -/
theorem c8_precancelled_no_spawn_witness :
    (true : Bool) = true ∧
    executeForeground (some 5000) "sleep 30" "{ sleep 30; }" none false [] true false false
        demoResult =
      ({ llmContent := "Command was cancelled by user before it could start."
         returnDisplay := "Command cancelled by user." }, 0) :=
  ⟨rfl, c8_precancelled_no_spawn (some 5000) "sleep 30" "{ sleep 30; }" none false [] true
    false false demoResult rfl⟩

/-- C9.  When the timeout-derived signal fired and the caller's own signal was
never aborted, the foreground result takes the timeout path: a
timeout-specific message with the partial output, not the caller-cancel
narrative. -/
theorem c9_timeout_narrative (timeoutParam : Option Nat)
    (userCommand commandToExecute : String) (directoryParam : Option String)
    (debugMode : Bool) (backgroundPIDs : List Nat)
    (callerAbortedStart timerFired callerAbortedEnd : Bool)
    (result : ShellExecutionResult) (hstart : callerAbortedStart = false)
    (htimer : timerFired = true) (hend : callerAbortedEnd = false) :
    executeForeground timeoutParam userCommand commandToExecute directoryParam debugMode
        backgroundPIDs callerAbortedStart timerFired callerAbortedEnd result =
      ({ llmContent := "Command exceeded timeout of " ++
           toString (effectiveTimeoutOf timeoutParam) ++
           "ms and was terminated.\nPartial output:\n" ++
           jsOrString result.output "(no output before timeout)"
         returnDisplay := "Command timed out after " ++
           toString (effectiveTimeoutOf timeoutParam) ++ "ms" }, 1) := by
  subst hstart
  subst htimer
  subst hend
  rfl

/-- C9 witness: a 10 s timeout on a 30 s command; the caller never cancelled. -/
theorem c9_timeout_narrative_witness :
    (false : Bool) = false ∧ (true : Bool) = true ∧
    executeForeground (some 10000) "sleep 30" "{ sleep 30; }" none false [] false true false
        demoTimeoutResult =
      ({ llmContent := "Command exceeded timeout of " ++
           toString (effectiveTimeoutOf (some 10000)) ++
           "ms and was terminated.\nPartial output:\n" ++
           jsOrString demoTimeoutResult.output "(no output before timeout)"
         returnDisplay := "Command timed out after " ++
           toString (effectiveTimeoutOf (some 10000)) ++ "ms" }, 1) :=
  ⟨rfl, rfl, c9_timeout_narrative (some 10000) "sleep 30" "{ sleep 30; }" none false []
    false true false demoTimeoutResult rfl rfl rfl⟩

/-- C1 witness: one concrete `addOutput` call under the real 10,000 bound. -/
theorem c1_buffer_bound_witness :
    mapGet (addOutput MAX_BUFFER_LINES demoReg "p1" "a\nb").processes "p1" = some demoP1ab ∧
    demoP1ab.outputBuffer.length ≤ MAX_BUFFER_LINES :=
  ⟨by rfl, c1_buffer_bound demoReg "p1" "a\nb" demoP1ab (by rfl)⟩
